import Mathlib

/-!
Shallow embedding of the FreightQuick API backend (src/main.py) and proofs
of the specification claims about it.

Numbers: Python floats are modelled as exact rationals; Python's built-in
rounding (round half to even) is modelled by halfEven and roundTo below.
Timestamps handled with day arithmetic (datetime subtraction, timedelta.days)
are modelled as rationals counting days; calendar dates compared with SQL
BETWEEN on DATE columns are modelled as year/month/day triples with
lexicographic order.  Database tables are lists of rows; endpoints are
functions over a DB record, returning Option where the Python handler would
raise on a missing row.  Randomness (random.uniform / random.randint) is
modelled by explicit parameters constrained by hypotheses to the interval
the Python call draws from.
-/

namespace FreightQuick

/- The Batteries rational arithmetic definitions are irreducible by default,
which blocks the definitional evaluation the concrete evaluation theorems
below rely on; make them unfold locally. -/
attribute [local semireducible] Rat.add Rat.sub Rat.mul Rat.inv

/-- Round a rational to the nearest integer, ties to even: the rounding mode
of Python's built-in round on exact values. -/
def halfEven (x : ℚ) : ℤ :=
  if x - ⌊x⌋ < 1/2 then ⌊x⌋
  else if 1/2 < x - ⌊x⌋ then ⌊x⌋ + 1
  else if 2 ∣ ⌊x⌋ then ⌊x⌋ else ⌊x⌋ + 1

/-- Python round(x, n): round to n decimal digits, ties to even. -/
def roundTo (n : ℕ) (x : ℚ) : ℚ :=
  (halfEven (x * 10 ^ n) : ℚ) / 10 ^ n

theorem floor_le_halfEven (x : ℚ) : ⌊x⌋ ≤ halfEven x := by
  unfold halfEven
  split
  · exact le_refl _
  · split
    · omega
    · split <;> omega

theorem halfEven_le_floor_add_one (x : ℚ) : halfEven x ≤ ⌊x⌋ + 1 := by
  unfold halfEven
  split
  · omega
  · split
    · omega
    · split <;> omega

theorem sub_half_le_halfEven (x : ℚ) : x - 1/2 ≤ (halfEven x : ℚ) := by
  unfold halfEven
  have hf := Int.sub_one_lt_floor x
  have hf2 := Int.floor_le x
  split
  · linarith
  · rename_i h1
    push_cast at h1 ⊢
    split
    · rename_i h2; linarith
    · split <;> push_cast <;> linarith

theorem halfEven_le_add_half (x : ℚ) : (halfEven x : ℚ) ≤ x + 1/2 := by
  unfold halfEven
  have hf2 := Int.floor_le x
  split
  · linarith
  · rename_i h1
    push_cast at h1 ⊢
    split
    · rename_i h2; linarith
    · rename_i h2
      have : x - (⌊x⌋ : ℚ) = 1/2 := le_antisymm (not_lt.mp h2) (not_lt.mp h1)
      split
      · linarith
      · push_cast; linarith

theorem one_le_halfEven (x : ℚ) (h : 1/2 < x) : 1 ≤ halfEven x := by
  rcases lt_or_le x 1 with hx | hx
  · unfold halfEven
    have h0 : ⌊x⌋ = 0 := Int.floor_eq_zero_iff.mpr ⟨by linarith, hx⟩
    rw [h0]
    have hn : ¬ (x - ((0 : ℤ) : ℚ) < 1/2) := by push_cast; linarith
    rw [if_neg hn]
    have hp : (1:ℚ)/2 < x - ((0 : ℤ) : ℚ) := by push_cast; linarith
    rw [if_pos hp]
    omega
  · calc (1 : ℤ) ≤ ⌊x⌋ := Int.le_floor.mpr (by exact_mod_cast hx)
    _ ≤ halfEven x := floor_le_halfEven x

theorem halfEven_intCast (n : ℤ) : halfEven (n : ℚ) = n := by
  unfold halfEven
  simp [Int.floor_intCast]

-- ── get_compliance_status (main.py lines 125-138) ──────────────────────────

/-- Embeds get_compliance_status.  The expiry argument is the parsed expiry
timestamp in days (midnight of the stored date); none covers both an absent
value and a string strptime fails to parse, which the Python except clause
maps to "missing".  days_left is (exp - datetime.now()).days, which floors
the signed difference. -/
def get_compliance_status (expiry : Option ℚ) (now : ℚ) : String :=
  match expiry with
  | none => "missing"
  | some exp =>
    let days_left : ℤ := ⌊exp - now⌋
    if days_left < 0 then "expired"
    else if days_left ≤ 30 then "expiring_soon"
    else "ok"

theorem roundTo_le (n : ℕ) (x : ℚ) : roundTo n x ≤ x + 1 / (2 * 10 ^ n) := by
  have hp : (0:ℚ) < 10 ^ n := by positivity
  have h := halfEven_le_add_half (x * 10 ^ n)
  rw [roundTo, div_le_iff hp]
  have he : (x + 1 / (2 * 10 ^ n)) * 10 ^ n = x * 10 ^ n + 1/2 := by
    field_simp
    ring
  rw [he]
  exact h

theorem le_roundTo (n : ℕ) (x : ℚ) : x - 1 / (2 * 10 ^ n) ≤ roundTo n x := by
  have hp : (0:ℚ) < 10 ^ n := by positivity
  have h := sub_half_le_halfEven (x * 10 ^ n)
  rw [roundTo, le_div_iff hp]
  have he : (x - 1 / (2 * 10 ^ n)) * 10 ^ n = x * 10 ^ n - 1/2 := by
    field_simp
    ring
  rw [he]
  exact h

theorem roundTo_pos (n : ℕ) (x : ℚ) (h : 1 / (2 * 10 ^ n) < x) : 0 < roundTo n x := by
  have hp : (0:ℚ) < 10 ^ n := by positivity
  have hh : 1/2 < x * 10 ^ n := by
    rw [div_lt_iff (by positivity : (0:ℚ) < 2 * 10 ^ n)] at h
    nlinarith
  have h1 : (1:ℤ) ≤ halfEven (x * 10 ^ n) := one_le_halfEven _ hh
  have h2 : (0:ℚ) < (halfEven (x * 10 ^ n) : ℚ) := by
    have : (1:ℚ) ≤ (halfEven (x * 10 ^ n) : ℚ) := by exact_mod_cast h1
    linarith
  exact div_pos h2 hp

theorem roundTo_zero_eq (x : ℚ) : roundTo 0 x = (halfEven x : ℚ) := by
  rw [roundTo, pow_zero, mul_one, div_one]

theorem intCast_le_roundTo_zero (m : ℤ) (x : ℚ) (h : (m:ℚ) ≤ x) :
    (m:ℚ) ≤ roundTo 0 x := by
  rw [roundTo_zero_eq]
  exact_mod_cast le_trans (Int.le_floor.mpr h) (floor_le_halfEven x)

theorem roundTo_zero_le_intCast (m : ℤ) (x : ℚ) (h : x ≤ (m:ℚ)) :
    roundTo 0 x ≤ (m:ℚ) := by
  rw [roundTo_zero_eq]
  have h1 := halfEven_le_add_half x
  have h3 : halfEven x < m + 1 := by
    have h2 : (halfEven x : ℚ) < (m:ℚ) + 1 := by linarith
    exact_mod_cast h2
  exact_mod_cast Int.lt_add_one_iff.mp h3

theorem roundTo_intCast_div (n : ℕ) (k : ℤ) :
    roundTo n ((k : ℚ) / 10 ^ n) = (k : ℚ) / 10 ^ n := by
  have hp : (10:ℚ) ^ n ≠ 0 := by positivity
  rw [roundTo]
  have he : (k:ℚ) / 10 ^ n * 10 ^ n = (k:ℚ) := by field_simp
  rw [he, halfEven_intCast]

theorem roundTo_den (n : ℕ) (x : ℚ) : ∃ k : ℤ, roundTo n x = (k:ℚ) / 10 ^ n :=
  ⟨halfEven (x * 10 ^ n), rfl⟩

theorem sum_intCast_div (n : ℕ) :
    ∀ l : List ℚ, (∀ y ∈ l, ∃ k : ℤ, y = (k:ℚ) / 10 ^ n) →
      ∃ K : ℤ, l.sum = (K:ℚ) / 10 ^ n
  | [], _ => ⟨0, by simp⟩
  | y :: t, h => by
    obtain ⟨k, hk⟩ := h y (List.mem_cons_self y t)
    obtain ⟨K, hK⟩ := sum_intCast_div n t (fun z hz => h z (List.mem_cons_of_mem y hz))
    refine ⟨k + K, ?_⟩
    rw [List.sum_cons, hk, hK, div_add_div_same]
    push_cast
    ring_nf

theorem roundTo_sum_eq (n : ℕ) (l : List ℚ)
    (h : ∀ y ∈ l, ∃ k : ℤ, y = (k:ℚ) / 10 ^ n) :
    roundTo n l.sum = l.sum := by
  obtain ⟨K, hK⟩ := sum_intCast_div n l h
  rw [hK, roundTo_intCast_div]

-- ── Data model: table rows and the database (init_db, main.py 140-359) ─────

/-- Calendar date as stored in the DATE columns (trip_date, fuel_date). -/
structure Date where
  year : ℕ
  month : ℕ
  day : ℕ
deriving DecidableEq, Repr

/-- Chronological order on dates, as SQL BETWEEN compares DATE values. -/
def Date.le (a b : Date) : Bool :=
  a.year < b.year ||
    (a.year == b.year &&
      (a.month < b.month || (a.month == b.month && a.day ≤ b.day)))

/-- Lexicographic order on char lists by code point. -/
def charListLe : List Char → List Char → Bool
  | [], _ => true
  | _ :: _, [] => false
  | c :: cs, d :: ds =>
    if c < d then true
    else if d < c then false
    else charListLe cs ds

/-- Text order used for SQL ORDER BY on TEXT columns and for Python sorted()
on strings: lexicographic comparison by code point. -/
def strLe (a b : String) : Bool := charListLe a.data b.data

/-- Rows of the drivers table (the columns the embedded handlers read). -/
structure DriverRow where
  id : ℤ
  username : String
  full_name : String
  status : String
  driver_type : String
  on_time_rate : ℚ
deriving DecidableEq, Repr

/-- Rows of the loads table. -/
structure LoadRow where
  id : ℤ
  company_id : ℤ
  load_number : String
  origin : String
  destination : String
  miles : ℚ
  rate : ℚ
  status : String
  assigned_driver_id : Option ℤ
deriving DecidableEq, Repr

/-- Rows of the assignments table. -/
structure AssignmentRow where
  id : ℤ
  driver_id : ℤ
  load_id : ℤ
  match_score : ℚ
  match_type : String
  status : String
deriving DecidableEq, Repr

/-- Rows of the routes table. -/
structure RouteRow where
  id : ℤ
  assignment_id : ℤ
  total_miles : ℚ
  estimated_hours : ℚ
  fuel_cost : ℚ
  toll_cost : ℚ
deriving DecidableEq, Repr

/-- Rows of the compliance table.  Expiry/date columns are TEXT in the
schema; they are modelled as the parsed timestamp in days (none when the
value is absent, empty or unparseable, which get_compliance_status maps to
"missing"). -/
structure ComplianceRow where
  driver_id : ℤ
  cdl_expiry : Option ℚ
  medical_card_expiry : Option ℚ
  mvr_date : Option ℚ
  drug_test_date : Option ℚ
  annual_inspection_expiry : Option ℚ
deriving DecidableEq, Repr

/-- Rows of the pay_records table. -/
structure PayRow where
  id : ℤ
  driver_id : ℤ
  load_id : Option ℤ
  week_ending : String
  gross_pay : ℚ
  fuel_deduction : ℚ
  insurance_deduction : ℚ
  advance_deduction : ℚ
  other_deduction : ℚ
deriving DecidableEq, Repr

/-- Rows of the insurance_policies table; expiry_date modelled like the
compliance expiries. -/
structure InsuranceRow where
  id : ℤ
  truck_number : String
  policy_number : String
  premium : ℚ
  expiry_date : Option ℚ
deriving DecidableEq, Repr

/-- Rows of the fuel_entries table. -/
structure FuelRow where
  company_id : ℤ
  driver_name : String
  vehicle : String
  state : String
  gallons : ℚ
  price_per_gallon : ℚ
  total_cost : ℚ
  fuel_date : Date
deriving DecidableEq, Repr

/-- Rows of the vehicle_miles table. -/
structure VehicleMilesRow where
  company_id : ℤ
  vehicle : String
  driver_name : String
  state : String
  miles : ℚ
  trip_date : Date
  load_id : Option ℤ
deriving DecidableEq, Repr

/-- The relational store: one list of rows per table, plus the SERIAL
sequences used to assign ids on INSERT. -/
structure DB where
  drivers : List DriverRow
  loads : List LoadRow
  assignments : List AssignmentRow
  routes : List RouteRow
  compliance : List ComplianceRow
  pay_records : List PayRow
  insurance_policies : List InsuranceRow
  fuel_entries : List FuelRow
  vehicle_miles : List VehicleMilesRow
  next_assignment_id : ℤ
  next_route_id : ℤ
deriving DecidableEq, Repr

-- ── GET /api/compliance and GET /api/insurance (main.py 668-681, 755-764) ──

/-- Order on the TEXT expiry_date column used by ORDER BY expiry_date ASC,
on the parsed-timestamp model: blank/unparseable values sort first, the
rest chronologically (ISO text order agrees with chronological order). -/
def optDateLe (a b : Option ℚ) : Bool :=
  match a, b with
  | none, _ => true
  | some _, none => false
  | some x, some y => decide (x ≤ y)

/-- A compliance row joined with its driver, plus the four derived status
fields the GET /api/compliance handler attaches to each record. -/
structure ComplianceOut where
  record : ComplianceRow
  driver : DriverRow
  cdl_status : String
  medical_status : String
  inspection_status : String
  drug_test_status : String
deriving DecidableEq, Repr

/-- Embeds GET /api/compliance: SELECT co.*,d.* FROM compliance co JOIN
drivers d ON co.driver_id=d.id ORDER BY d.full_name, then the loop that
attaches the four statuses via get_compliance_status. -/
def get_compliance (db : DB) (now : ℚ) : List ComplianceOut :=
  let joined := db.compliance.flatMap (fun co =>
    (db.drivers.filter (fun d => d.id == co.driver_id)).map (fun d => (co, d)))
  let ordered := List.insertionSort
    (fun a b : ComplianceRow × DriverRow => strLe a.2.full_name b.2.full_name = true) joined
  ordered.map (fun cd =>
    { record := cd.1, driver := cd.2
      cdl_status := get_compliance_status cd.1.cdl_expiry now
      medical_status := get_compliance_status cd.1.medical_card_expiry now
      inspection_status := get_compliance_status cd.1.annual_inspection_expiry now
      drug_test_status := get_compliance_status cd.1.drug_test_date now })

/-- An insurance policy plus the derived status field the GET /api/insurance
handler attaches. -/
structure InsuranceOut where
  policy : InsuranceRow
  status : String
deriving DecidableEq, Repr

/-- Embeds GET /api/insurance: SELECT * FROM insurance_policies ORDER BY
expiry_date ASC, then the loop attaching status via get_compliance_status. -/
def get_insurance (db : DB) (now : ℚ) : List InsuranceOut :=
  (List.insertionSort
      (fun a b : InsuranceRow => optDateLe a.expiry_date b.expiry_date = true)
      db.insurance_policies).map
    (fun p => { policy := p, status := get_compliance_status p.expiry_date now })

-- ── GET /api/compliance/summary and /api/insurance/summary (699-709, 778-789)

/-- The JSON object returned by GET /api/compliance/summary. -/
structure ComplianceSummary where
  total : ℕ
  expired : ℕ
  expiring_soon : ℕ
  compliant : ℤ
deriving DecidableEq, Repr

/-- Embeds GET /api/compliance/summary: counts records whose CDL or medical
card status is expired resp. expiring_soon; compliant is total minus the
two counts. -/
def compliance_summary (db : DB) (now : ℚ) : ComplianceSummary :=
  let records := db.compliance
  let total := records.length
  let expired := (records.filter (fun r =>
    get_compliance_status r.cdl_expiry now == "expired" ||
    get_compliance_status r.medical_card_expiry now == "expired")).length
  let expiring := (records.filter (fun r =>
    get_compliance_status r.cdl_expiry now == "expiring_soon" ||
    get_compliance_status r.medical_card_expiry now == "expiring_soon")).length
  { total := total, expired := expired, expiring_soon := expiring
    compliant := (total : ℤ) - expired - expiring }

/-- The JSON object returned by GET /api/insurance/summary. -/
structure InsuranceSummary where
  total : ℕ
  expired : ℕ
  expiring_soon : ℕ
  compliant : ℤ
  total_premium : ℚ
deriving DecidableEq, Repr

/-- Embeds GET /api/insurance/summary. -/
def insurance_summary (db : DB) (now : ℚ) : InsuranceSummary :=
  let policies := db.insurance_policies
  let total := policies.length
  let expired := (policies.filter (fun p =>
    get_compliance_status p.expiry_date now == "expired")).length
  let expiring := (policies.filter (fun p =>
    get_compliance_status p.expiry_date now == "expiring_soon")).length
  { total := total, expired := expired, expiring_soon := expiring
    compliant := (total : ℤ) - expired - expiring
    total_premium := roundTo 2 ((policies.map (·.premium)).sum) }

-- ── GET /api/pay (main.py 713-728) ─────────────────────────────────────────

/-- A pay record joined with its driver, plus the two derived fields the
GET /api/pay handler attaches. -/
structure PayOut where
  record : PayRow
  driver : DriverRow
  total_deductions : ℚ
  net_pay : ℚ
deriving DecidableEq, Repr

/-- Embeds GET /api/pay: join with drivers, optional WHERE p.driver_id=%s
(guarded by Python truthiness, so a 0 id falls to the unfiltered branch),
ORDER BY p.week_ending DESC, then the loop attaching total_deductions and
net_pay.  The database is returned unchanged: the handler only SELECTs. -/
def get_pay_records (db : DB) (driver_id : Option ℤ) : List PayOut × DB :=
  let joined := db.pay_records.flatMap (fun p =>
    (db.drivers.filter (fun d => d.id == p.driver_id)).map (fun d => (p, d)))
  let rows := match driver_id with
    | some did => if did == 0 then joined else joined.filter (fun pd => pd.1.driver_id == did)
    | none => joined
  let ordered := List.insertionSort
    (fun a b : PayRow × DriverRow => strLe b.1.week_ending a.1.week_ending = true) rows
  (ordered.map (fun pd =>
    let td := pd.1.fuel_deduction + pd.1.insurance_deduction +
      pd.1.advance_deduction + pd.1.other_deduction
    { record := pd.1, driver := pd.2, total_deductions := td
      net_pay := roundTo 2 (pd.1.gross_pay - td) }), db)

-- ── FUEL & IFTA (main.py 1112-1232, 1254-1290) ─────────────────────────────

/-- The IFTA_RATES lookup table (main.py 1114-1124), exact decimals. -/
def IFTA_RATES : List (String × ℚ) :=
  [("AL", 290/1000), ("AK", 80/1000), ("AZ", 260/1000), ("AR", 285/1000),
   ("CA", 823/1000), ("CO", 205/1000), ("CT", 402/1000), ("DE", 220/1000),
   ("FL", 337/1000), ("GA", 312/1000), ("ID", 320/1000), ("IL", 455/1000),
   ("IN", 530/1000), ("IA", 325/1000), ("KS", 260/1000), ("KY", 246/1000),
   ("LA", 200/1000), ("ME", 312/1000), ("MD", 373/1000), ("MA", 240/1000),
   ("MI", 263/1000), ("MN", 285/1000), ("MS", 180/1000), ("MO", 170/1000),
   ("MT", 290/1000), ("NE", 246/1000), ("NV", 270/1000), ("NH", 222/1000),
   ("NJ", 418/1000), ("NM", 210/1000), ("NY", 474/1000), ("NC", 362/1000),
   ("ND", 230/1000), ("OH", 385/1000), ("OK", 190/1000), ("OR", 360/1000),
   ("PA", 576/1000), ("RI", 340/1000), ("SC", 260/1000), ("SD", 280/1000),
   ("TN", 270/1000), ("TX", 200/1000), ("UT", 245/1000), ("VT", 270/1000),
   ("VA", 262/1000), ("WA", 494/1000), ("WV", 357/1000), ("WI", 329/1000),
   ("WY", 240/1000)]

/-- IFTA_RATES.get(state, 0.25). -/
def iftaRate (s : String) : ℚ :=
  (((IFTA_RATES.find? (fun p => p.1 == s)).map Prod.snd).getD (25/100))

/-- The quarters dict of ifta_report / ifta_export: (start month, start day),
(end month, end day); none models the KeyError a quarter outside 1-4
raises. -/
def quarterRange : ℕ → Option ((ℕ × ℕ) × (ℕ × ℕ))
  | 1 => some ((1, 1), (3, 31))
  | 2 => some ((4, 1), (6, 30))
  | 3 => some ((7, 1), (9, 30))
  | 4 => some ((10, 1), (12, 31))
  | _ => none

/-- SELECT ... FROM vehicle_miles WHERE company_id=%s AND trip_date BETWEEN
start AND end. -/
def tripsInQuarter (db : DB) (cid : ℤ) (year : ℕ) (qr : (ℕ × ℕ) × (ℕ × ℕ)) :
    List VehicleMilesRow :=
  db.vehicle_miles.filter (fun t => t.company_id == cid &&
    Date.le ⟨year, qr.1.1, qr.1.2⟩ t.trip_date &&
    Date.le t.trip_date ⟨year, qr.2.1, qr.2.2⟩)

/-- SELECT ... FROM fuel_entries WHERE company_id=%s AND fuel_date BETWEEN
start AND end. -/
def fuelInQuarter (db : DB) (cid : ℤ) (year : ℕ) (qr : (ℕ × ℕ) × (ℕ × ℕ)) :
    List FuelRow :=
  db.fuel_entries.filter (fun f => f.company_id == cid &&
    Date.le ⟨year, qr.1.1, qr.1.2⟩ f.fuel_date &&
    Date.le f.fuel_date ⟨year, qr.2.1, qr.2.2⟩)

/-- SUM(miles) GROUP BY state, read back for one state (0 when the state has
no row, as dict .get(state, 0) yields). -/
def milesInState (trips : List VehicleMilesRow) (s : String) : ℚ :=
  ((trips.filter (fun t => t.state == s)).map (fun t => t.miles)).sum

/-- SUM(gallons) GROUP BY state for one state (0 when absent). -/
def gallonsInState (fuels : List FuelRow) (s : String) : ℚ :=
  ((fuels.filter (fun f => f.state == s)).map (fun f => f.gallons)).sum

/-- The key set of the miles_by_state dict. -/
def tripStates (trips : List VehicleMilesRow) : List String :=
  (trips.map (fun t => t.state)).dedup

/-- The key set of the fuel_by_state dict. -/
def fuelStates (fuels : List FuelRow) : List String :=
  (fuels.map (fun f => f.state)).dedup

/-- total_miles = sum(miles_by_state.values()). -/
def totalMilesOf (trips : List VehicleMilesRow) : ℚ :=
  ((tripStates trips).map (milesInState trips)).sum

/-- total_gallons = sum of the per-state gallon sums. -/
def totalGallonsOf (fuels : List FuelRow) : ℚ :=
  ((fuelStates fuels).map (gallonsInState fuels)).sum

/-- fleet_mpg = round(total_miles / total_gallons, 2) if total_gallons > 0
else 0 (ifta_report, line 1204). -/
def fleetMpgOf (trips : List VehicleMilesRow) (fuels : List FuelRow) : ℚ :=
  if 0 < totalGallonsOf fuels then roundTo 2 (totalMilesOf trips / totalGallonsOf fuels)
  else 0

/-- The states iterated per jurisdiction: Python builds the set union of the
two dicts' keys and sorts it (the set itself is unordered; only the sorted
result is determined). -/
def sortedStatesOf (trips : List VehicleMilesRow) (fuels : List FuelRow) : List String :=
  List.insertionSort (fun a b => strLe a b = true) ((tripStates trips ++ fuelStates fuels).dedup)

/-- One element of the report's jurisdictions list (lines 1206-1221). -/
structure Jurisdiction where
  state : String
  miles : ℚ
  gallons_purchased : ℚ
  gallons_consumed : ℚ
  tax_rate : ℚ
  tax_due : ℚ
  status : String
deriving DecidableEq, Repr

/-- The per-state computation of ifta_report's loop body. -/
def mkJurisdiction (trips : List VehicleMilesRow) (fuels : List FuelRow)
    (mpg : ℚ) (s : String) : Jurisdiction :=
  let miles := milesInState trips s
  let gallons_purchased := gallonsInState fuels s
  let rate := iftaRate s
  let gallons_consumed := if 0 < mpg then roundTo 3 (miles / mpg) else 0
  let tax_due := roundTo 2 ((gallons_consumed - gallons_purchased) * rate)
  { state := s, miles := roundTo 1 miles
    gallons_purchased := roundTo 3 gallons_purchased
    gallons_consumed := gallons_consumed, tax_rate := rate, tax_due := tax_due
    status := if 0 < tax_due then "DUE" else "CREDIT" }

/-- The JSON object returned by GET /api/ifta/report. -/
structure IftaReport where
  quarter : ℕ
  year : ℕ
  total_miles : ℚ
  total_gallons : ℚ
  fleet_mpg : ℚ
  total_tax_due : ℚ
  jurisdictions : List Jurisdiction
deriving DecidableEq, Repr

/-- The report built for a resolved quarter range. -/
def buildIftaReport (db : DB) (company_id : ℤ) (quarter year : ℕ)
    (qr : (ℕ × ℕ) × (ℕ × ℕ)) : IftaReport :=
  let trips := tripsInQuarter db company_id year qr
  let fuels := fuelInQuarter db company_id year qr
  let fleet_mpg := fleetMpgOf trips fuels
  let jurisdictions := (sortedStatesOf trips fuels).map (mkJurisdiction trips fuels fleet_mpg)
  { quarter := quarter, year := year
    total_miles := roundTo 1 (totalMilesOf trips)
    total_gallons := roundTo 3 (totalGallonsOf fuels)
    fleet_mpg := fleet_mpg
    total_tax_due := roundTo 2 ((jurisdictions.map (fun j => j.tax_due)).sum)
    jurisdictions := jurisdictions }

/-- Embeds GET /api/ifta/report (main.py 1182-1232). -/
def ifta_report (db : DB) (company_id : ℤ) (quarter year : ℕ) : Option IftaReport :=
  (quarterRange quarter).map (buildIftaReport db company_id quarter year)

/-- One data line of the CSV body written by GET /api/ifta/export, with the
numeric cells kept as numbers. -/
structure CsvRow where
  state : String
  miles : ℚ
  gallons_purchased : ℚ
  gallons_consumed : ℚ
  tax_rate : ℚ
  tax_due : ℚ
  status : String
deriving DecidableEq, Repr

/-- The per-state computation of ifta_export's loop body (lines 1280-1286). -/
def mkCsvRow (trips : List VehicleMilesRow) (fuels : List FuelRow)
    (mpg : ℚ) (s : String) : CsvRow :=
  let miles := milesInState trips s
  let gallons_purchased := gallonsInState fuels s
  let rate := iftaRate s
  let gallons_consumed := if 0 < mpg then roundTo 3 (miles / mpg) else 0
  let tax_due := roundTo 2 ((gallons_consumed - gallons_purchased) * rate)
  { state := s, miles := roundTo 1 miles
    gallons_purchased := roundTo 3 gallons_purchased
    gallons_consumed := gallons_consumed, tax_rate := rate, tax_due := tax_due
    status := if 0 < tax_due then "DUE" else "CREDIT" }

/-- The CSV data rows for a resolved quarter range.  Unlike the report, the
export leaves fleet MPG unrounded (line 1273). -/
def buildCsvRows (db : DB) (company_id : ℤ) (year : ℕ)
    (qr : (ℕ × ℕ) × (ℕ × ℕ)) : List CsvRow :=
  let trips := tripsInQuarter db company_id year qr
  let fuels := fuelInQuarter db company_id year qr
  let fleet_mpg :=
    if 0 < totalGallonsOf fuels then totalMilesOf trips / totalGallonsOf fuels else 0
  (sortedStatesOf trips fuels).map (mkCsvRow trips fuels fleet_mpg)

/-- Embeds the per-state data rows of GET /api/ifta/export (main.py
1254-1290). -/
def ifta_export (db : DB) (company_id : ℤ) (quarter year : ℕ) : Option (List CsvRow) :=
  (quarterRange quarter).map (buildCsvRows db company_id year)

/-- Projects a report jurisdiction onto the CSV cells; the claim under test
is that the export rows are exactly this projection of the report. -/
def jurToCsv (j : Jurisdiction) : CsvRow :=
  { state := j.state, miles := j.miles, gallons_purchased := j.gallons_purchased
    gallons_consumed := j.gallons_consumed, tax_rate := j.tax_rate
    tax_due := j.tax_due, status := j.status }

-- ── POST /api/match (main.py 525-540) ──────────────────────────────────────

/-- The match_types list used by the match engine and create_assignment. -/
def matchTypes : List String :=
  ["SOURCE LOAD", "4 LOAD TOUR", "1HR TO SOURCE", "SOURCE TOUR"]

/-- One element of the matches list returned by POST /api/match (the driver
row spread together with the added fields; the random eta text is not
modelled, no claim mentions it). -/
structure MatchOut where
  driver : DriverRow
  match_score : ℚ
  match_type : String
deriving DecidableEq, Repr

/-- Embeds POST /api/match: load up the load (fetchone raises when absent),
take the available drivers ordered by on_time_rate DESC, score the first 5
with on_time_rate times a random factor from uniform(0.88, 1.0) (the rands
argument, constrained by hypotheses), then sort by match_score descending. -/
def match_drivers (db : DB) (load_id : ℤ) (rands : ℕ → ℚ) :
    Option (LoadRow × List MatchOut) :=
  match db.loads.find? (fun l => l.id == load_id) with
  | none => none
  | some load =>
    let available_drivers := List.insertionSort
      (fun a b : DriverRow => b.on_time_rate ≤ a.on_time_rate)
      (db.drivers.filter (fun d => d.status == "available"))
    let scored := (available_drivers.take 5).enum.map (fun id =>
      { driver := id.2
        match_score := roundTo 2 (id.2.on_time_rate * rands id.1)
        match_type := matchTypes.getD (id.1 % matchTypes.length) "" : MatchOut })
    some (load, List.insertionSort
      (fun a b : MatchOut => b.match_score ≤ a.match_score) scored)

-- ── POST /api/assignments (main.py 482-521) ────────────────────────────────

/-- The state whitelist of create_assignment (line 510). -/
def usStates : List String :=
  ["AL","AK","AZ","AR","CA","CO","CT","DE","FL","GA","ID","IL","IN","IA",
   "KS","KY","LA","ME","MD","MA","MI","MN","MS","MO","MT","NE","NV","NH",
   "NJ","NM","NY","NC","ND","OH","OK","OR","PA","RI","SC","SD","TN","TX",
   "UT","VT","VA","WA","WV","WI","WY"]

/-- Python str.strip on the char-list model. -/
def trimChars (l : List Char) : List Char :=
  ((l.dropWhile (fun c => c.isWhitespace)).reverse.dropWhile
    (fun c => c.isWhitespace)).reverse

/-- city.strip()[-2:].upper(): the last two characters of the trimmed text,
upper-cased. -/
def stateOf (s : String) : String :=
  String.mk (((trimChars s.data).reverse.take 2).reverse.map (fun c => c.toUpper))

/-- f-string vehicle tag TRK-{driver_id}; the zero padding of the Python
format is not modelled, no claim depends on the tag text. -/
def trkTag (driver_id : ℤ) : String := "TRK-" ++ toString driver_id

/-- The JSON object returned by POST /api/assignments. -/
structure AssignmentResult where
  id : ℤ
  match_score : ℚ
  match_type : String
deriving DecidableEq, Repr

/-- UPDATE drivers SET status='on_load' WHERE id=driver_id, as a row map. -/
def assignDriverUpd (driver_id : ℤ) (d : DriverRow) : DriverRow :=
  if d.id == driver_id then { d with status := "on_load" } else d

/-- UPDATE loads SET status='assigned',assigned_driver_id=driver_id WHERE
id=load_id, as a row map. -/
def assignLoadUpd (driver_id load_id : ℤ) (l : LoadRow) : LoadRow :=
  if l.id == load_id then
    { l with status := "assigned", assigned_driver_id := some driver_id }
  else l

/-- The successful tail of POST /api/assignments, given the load row read
back after the UPDATE. -/
def create_assignment_apply (db : DB) (driver_id load_id : ℤ) (match_score : ℚ)
    (match_type : String) (trip_date : Date) (load : LoadRow) :
    AssignmentResult × DB :=
  let assignment_id := db.next_assignment_id
  let assignments2 := db.assignments ++
    [{ id := assignment_id, driver_id := driver_id, load_id := load_id
       match_score := match_score, match_type := match_type, status := "active" }]
  let drivers2 := db.drivers.map (assignDriverUpd driver_id)
  let loads2 := db.loads.map (assignLoadUpd driver_id load_id)
  let route_miles := load.miles
    let routes2 := db.routes ++
      [{ id := db.next_route_id, assignment_id := assignment_id
         total_miles := route_miles
         estimated_hours := roundTo 1 (route_miles / 55)
         fuel_cost := roundTo 2 (route_miles * (43/100))
         toll_cost := roundTo 2 (route_miles * (8/100)) }]
    let driver_name := match db.drivers.find? (fun d => d.id == driver_id) with
      | some d => d.full_name
      | none => "Unknown"
    let origin_state := if load.origin == "" then "XX" else stateOf load.origin
    let dest_state := if load.destination == "" then "XX" else stateOf load.destination
    let vm1 : List VehicleMilesRow :=
      if origin_state ∈ usStates then
        [{ company_id := load.company_id, vehicle := trkTag driver_id
           driver_name := driver_name, state := origin_state
           miles := roundTo 1 (route_miles * (1/2)), trip_date := trip_date
           load_id := some load.id }]
      else []
    let vm2 : List VehicleMilesRow :=
      if dest_state ∈ usStates then
        [{ company_id := load.company_id, vehicle := trkTag driver_id
           driver_name := driver_name, state := dest_state
           miles := roundTo 1 (route_miles * (1/2)), trip_date := trip_date
           load_id := some load.id }]
      else []
    ({ id := assignment_id, match_score := match_score, match_type := match_type },
      { db with assignments := assignments2, drivers := drivers2, loads := loads2
                routes := routes2, vehicle_miles := db.vehicle_miles ++ vm1 ++ vm2
                next_assignment_id := assignment_id + 1
                next_route_id := db.next_route_id + 1 })

/-- Embeds POST /api/assignments: insert the assignment row, set the driver
on_load, set the load assigned with the driver id, read the load back and
create the route row from its miles, then auto-log half the trip miles to
vehicle_miles for recognised origin/destination states.  match_score is the
random uniform(0.80, 0.99) draw; match_type the given or randomly chosen
text.  none when the load id matches no row (dict(c.fetchone()) raises). -/
def create_assignment (db : DB) (driver_id load_id : ℤ) (match_score : ℚ)
    (match_type : String) (trip_date : Date) : Option (AssignmentResult × DB) :=
  match (db.loads.map (assignLoadUpd driver_id load_id)).find?
      (fun l => l.id == load_id) with
  | none => none
  | some load =>
    some (create_assignment_apply db driver_id load_id match_score match_type trip_date load)

-- ── POST /api/routes/optimize (main.py 571-619) ────────────────────────────

/-- The JSON object returned by POST /api/routes/optimize; the fallback
branch's response carries no estimated_hours / fuel_cost keys, hence the
Option fields. -/
structure OptimizeResult where
  optimized : Bool
  real_route : Bool
  total_miles : ℚ
  estimated_hours : Option ℚ
  fuel_cost : Option ℚ
  savings_miles : ℚ
deriving DecidableEq, Repr

/-- Embeds POST /api/routes/optimize.  real is the outcome of the external
get_real_route call (miles, hours), none when geocoding or routing failed;
savings_pct is the random uniform(0.03, 0.08) draw used by the fallback
branch.  The SELECT joins routes, assignments and loads, so all three rows
must exist. -/
def optimize_route (db : DB) (assignment_id : ℤ) (real : Option (ℚ × ℚ))
    (savings_pct : ℚ) : Option (OptimizeResult × DB) :=
  match db.routes.find? (fun r => r.assignment_id == assignment_id) with
  | none => none
  | some route =>
  match db.assignments.find? (fun a => a.id == route.assignment_id) with
  | none => none
  | some asg =>
  match db.loads.find? (fun l => l.id == asg.load_id) with
  | none => none
  | some _load =>
    match real with
    | some mh =>
      let new_miles := mh.1
      let new_hours := mh.2
      let new_fuel := roundTo 2 (new_miles * (43/100))
      let routes2 := db.routes.map (fun r =>
        if r.assignment_id == assignment_id then
          { r with total_miles := new_miles, estimated_hours := new_hours
                   fuel_cost := new_fuel }
        else r)
      some ({ optimized := true, real_route := true, total_miles := new_miles
              estimated_hours := some new_hours, fuel_cost := some new_fuel
              savings_miles := roundTo 1 (route.total_miles - new_miles) },
        { db with routes := routes2 })
    | none =>
      let new_miles := roundTo 1 (route.total_miles * (1 - savings_pct))
      let new_fuel := roundTo 2 (new_miles * (43/100))
      let routes2 := db.routes.map (fun r =>
        if r.assignment_id == assignment_id then
          { r with total_miles := new_miles
                   estimated_hours := roundTo 1 (new_miles / 55), fuel_cost := new_fuel }
        else r)
      some ({ optimized := true, real_route := false, total_miles := new_miles
              estimated_hours := none, fuel_cost := none
              savings_miles := roundTo 1 (route.total_miles - new_miles) },
        { db with routes := routes2 })

-- ── GET /api/analytics (main.py 634-664) ───────────────────────────────────

/-- One entry of the daily_trend list; the date is the day number (the
strftime text formatting is not modelled). -/
structure TrendEntry where
  date : ℤ
  revenue : ℚ
  loads : ℤ
  miles : ℤ
deriving DecidableEq, Repr

/-- The summary object of GET /api/analytics. -/
structure AnalyticsSummary where
  total_drivers : ℕ
  available_drivers : ℕ
  utilization_rate : ℚ
  active_loads : ℕ
  active_assignments : ℕ
  total_revenue : ℚ
  avg_on_time_rate : ℚ
  total_miles : ℚ
  total_fuel_cost : ℚ
deriving DecidableEq, Repr

/-- The JSON object returned by GET /api/analytics. -/
structure AnalyticsOut where
  summary : AnalyticsSummary
  daily_trend : List TrendEntry
  driver_utilization : List (String × ℕ × ℕ)
deriving DecidableEq, Repr

/-- The daily_trend loop (lines 646-650): for i in range(13,-1,-1), one
entry per day ending today, with fresh uniform(18000,42000), randint(4,14)
and randint(2000,6000) draws (the revR / loadR / milesR arguments,
constrained by hypotheses). -/
def dailyTrend (today : ℤ) (revR : ℕ → ℚ) (loadR milesR : ℕ → ℤ) : List TrendEntry :=
  (List.range 14).map (fun k =>
    let i : ℕ := 13 - k
    { date := today - (i : ℤ), revenue := roundTo 0 (revR i)
      loads := loadR i, miles := milesR i })

/-- Embeds GET /api/analytics. -/
def get_analytics (db : DB) (today : ℤ) (revR : ℕ → ℚ) (loadR milesR : ℕ → ℤ) :
    AnalyticsOut :=
  let total_drivers := db.drivers.length
  let available_drivers := (db.drivers.filter (fun d => d.status == "available")).length
  let active_loads := (db.loads.filter (fun l =>
    l.status == "available" || l.status == "assigned" || l.status == "in_transit")).length
  let total_revenue := ((db.loads.filter (fun l => l.status == "delivered")).map
    (fun l => l.rate)).sum
  let active_assignments := (db.assignments.filter (fun a => a.status == "active")).length
  let avg_on_time : Option ℚ :=
    if db.drivers.length == 0 then none
    else some (((db.drivers.map (fun d => d.on_time_rate)).sum) / (db.drivers.length : ℚ))
  let total_miles := (db.routes.map (fun r => r.total_miles)).sum
  let fuel_cost := (db.routes.map (fun r => r.fuel_cost)).sum
  let types := (db.drivers.map (fun d => d.driver_type)).dedup
  { summary := {
      total_drivers := total_drivers
      available_drivers := available_drivers
      utilization_rate :=
        roundTo 1 (((total_drivers : ℚ) - (available_drivers : ℚ)) /
          ((max total_drivers 1 : ℕ) : ℚ) * 100)
      active_loads := active_loads
      active_assignments := active_assignments
      total_revenue := roundTo 2 total_revenue
      avg_on_time_rate := roundTo 1 ((avg_on_time.getD 0) * 100)
      total_miles := roundTo 1 total_miles
      total_fuel_cost := roundTo 2 fuel_cost }
    daily_trend := dailyTrend today revR loadR milesR
    driver_utilization := types.map (fun t =>
      (t, (db.drivers.filter (fun d => d.driver_type == t)).length,
          (db.drivers.filter (fun d => d.driver_type == t && d.status == "on_load")).length)) }

-- ── Concrete sample data for the evaluation theorems ───────────────────────

/-- A database with every table empty. -/
def emptyDB : DB :=
  { drivers := [], loads := [], assignments := [], routes := [], compliance := []
    pay_records := [], insurance_policies := [], fuel_entries := []
    vehicle_miles := [], next_assignment_id := 1, next_route_id := 1 }

/-- An available driver (from the seed data). -/
def sampleDriver : DriverRow :=
  { id := 1, username := "IGRAU", full_name := "Ivan Grau", status := "available"
    driver_type := "OTR", on_time_rate := 97/100 }

/-- An off-duty driver (from the seed data). -/
def sampleDriver2 : DriverRow :=
  { id := 2, username := "CSMITH", full_name := "Carol Smith", status := "off_duty"
    driver_type := "Solo", on_time_rate := 99/100 }

/-- An available load (from the seed data). -/
def sampleLoad : LoadRow :=
  { id := 1, company_id := 1, load_number := "010192-206", origin := "Chicago, IL"
    destination := "Detroit, MI", miles := 283, rate := 1850, status := "available"
    assigned_driver_id := none }

/-- A route of 100 miles for assignment 1. -/
def sampleRoute : RouteRow :=
  { id := 1, assignment_id := 1, total_miles := 100, estimated_hours := 18/10
    fuel_cost := 43, toll_cost := 8 }

/-- An active assignment pairing driver 1 and load 1. -/
def sampleAssignment : AssignmentRow :=
  { id := 1, driver_id := 1, load_id := 1, match_score := 9/10
    match_type := "SOURCE LOAD", status := "active" }

/-- A compliance record: relative to now = 0 the CDL is fine for 40 days,
the medical card for 10, the drug test date is 5 days past, the annual
inspection is not on file. -/
def sampleCompliance : ComplianceRow :=
  { driver_id := 1, cdl_expiry := some 40, medical_card_expiry := some 10
    mvr_date := none, drug_test_date := some (-5)
    annual_inspection_expiry := none }

/-- A pay record with all four deductions present. -/
def samplePay : PayRow :=
  { id := 1, driver_id := 1, load_id := none, week_ending := "2026-02-14"
    gross_pay := 5000, fuel_deduction := 200, insurance_deduction := 100
    advance_deduction := 50, other_deduction := 25 }

/-- An insurance policy expired 3 days before now = 0. -/
def sampleInsurance : InsuranceRow :=
  { id := 1, truck_number := "TRK-001", policy_number := "P-100"
    premium := 1200, expiry_date := some (-3) }

/-- 1000 California miles inside Q1 2026. -/
def sampleTripCA : VehicleMilesRow :=
  { company_id := 1, vehicle := "TRK-001", driver_name := "Ivan Grau"
    state := "CA", miles := 1000, trip_date := ⟨2026, 2, 1⟩, load_id := none }

/-- 300 California gallons inside Q1 2026. -/
def sampleFuelCA : FuelRow :=
  { company_id := 1, driver_name := "Ivan Grau", vehicle := "TRK-001"
    state := "CA", gallons := 300, price_per_gallon := 4, total_cost := 1200
    fuel_date := ⟨2026, 2, 2⟩ }

/-- The concrete database most evaluation theorems run on. -/
def sampleDB : DB :=
  { drivers := [sampleDriver, sampleDriver2], loads := [sampleLoad]
    assignments := [sampleAssignment], routes := [sampleRoute]
    compliance := [sampleCompliance], pay_records := [samplePay]
    insurance_policies := [sampleInsurance], fuel_entries := [sampleFuelCA]
    vehicle_miles := [sampleTripCA], next_assignment_id := 2, next_route_id := 2 }

/-- Unfolding of the classifier on a present expiry value. -/
theorem get_compliance_status_some (e now : ℚ) :
    get_compliance_status (some e) now =
      if ⌊e - now⌋ < 0 then "expired"
      else if ⌊e - now⌋ ≤ 30 then "expiring_soon" else "ok" := rfl

/-- C2: For every compliance record and insurance policy returned by the
API, the derived status field is a pure date-threshold classification of
the stored expiry date relative to the current date: "missing" when the
date is absent, "expired" when the expiry date is strictly in the past
(days left < 0), "expiring_soon" when 0 <= days left <= 30, and "ok" when
days left > 30. -/
theorem expiry_status_classification (expiry : Option ℚ) (now : ℚ) (db : DB) :
    (get_compliance_status expiry now = "missing" ↔ expiry = none) ∧
    (∀ e : ℚ, expiry = some e →
      ((get_compliance_status expiry now = "expired" ↔ ⌊e - now⌋ < 0) ∧
       (get_compliance_status expiry now = "expiring_soon" ↔
         0 ≤ ⌊e - now⌋ ∧ ⌊e - now⌋ ≤ 30) ∧
       (get_compliance_status expiry now = "ok" ↔ 30 < ⌊e - now⌋))) ∧
    (∀ r ∈ get_compliance db now,
      r.cdl_status = get_compliance_status r.record.cdl_expiry now ∧
      r.medical_status = get_compliance_status r.record.medical_card_expiry now ∧
      r.inspection_status = get_compliance_status r.record.annual_inspection_expiry now ∧
      r.drug_test_status = get_compliance_status r.record.drug_test_date now) ∧
    (∀ p ∈ get_insurance db now,
      p.status = get_compliance_status p.policy.expiry_date now) := by
  refine ⟨?_, ?_, ?_, ?_⟩
  · cases expiry with
    | none => simp [get_compliance_status]
    | some e =>
      rw [get_compliance_status_some]
      split_ifs <;> exact iff_of_false (by decide) (by simp)
  · rintro e rfl
    rw [get_compliance_status_some]
    split_ifs with h1 h2
    · exact ⟨iff_of_true rfl h1, iff_of_false (by decide) (by omega),
        iff_of_false (by decide) (by omega)⟩
    · exact ⟨iff_of_false (by decide) (by omega),
        iff_of_true rfl ⟨by omega, h2⟩, iff_of_false (by decide) (by omega)⟩
    · exact ⟨iff_of_false (by decide) (by omega),
        iff_of_false (by decide) (by omega), iff_of_true rfl (by omega)⟩
  · intro r hr
    obtain ⟨cd, _, rfl⟩ := List.mem_map.mp hr
    exact ⟨rfl, rfl, rfl, rfl⟩
  · intro p hp
    obtain ⟨q, _, rfl⟩ := List.mem_map.mp hp
    exact rfl

/-- The record GET /api/compliance returns on sampleDB at now = 0. -/
def sampleComplianceOut : ComplianceOut :=
  { record := sampleCompliance, driver := sampleDriver, cdl_status := "ok"
    medical_status := "expiring_soon", inspection_status := "missing"
    drug_test_status := "expired" }

/-- The record GET /api/insurance returns on sampleDB at now = 0. -/
def sampleInsuranceOut : InsuranceOut :=
  { policy := sampleInsurance, status := "expired" }

/-- Witness for C2 at concrete inputs. -/
theorem expiry_status_classification_witness :
    (get_compliance_status (some 40) 0 = "ok" ↔ 30 < ⌊(40:ℚ) - 0⌋) ∧
    sampleComplianceOut.cdl_status =
      get_compliance_status sampleComplianceOut.record.cdl_expiry 0 ∧
    sampleInsuranceOut.status =
      get_compliance_status sampleInsuranceOut.policy.expiry_date 0 :=
  ⟨((expiry_status_classification (some 40) 0 sampleDB).2.1 40 rfl).2.2,
   ((expiry_status_classification (some 40) 0 sampleDB).2.2.1 sampleComplianceOut
      (by decide)).1,
   (expiry_status_classification (some 40) 0 sampleDB).2.2.2 sampleInsuranceOut
      (by decide)⟩

/-- C3: For every pay record returned by GET /api/pay, total_deductions is
the sum of the four deduction columns and net_pay is gross_pay minus
total_deductions rounded to 2 decimals; the stored rows are not modified. -/
theorem pay_records_derived_fields (db : DB) (driver_id : Option ℤ) :
    (∀ r ∈ (get_pay_records db driver_id).1,
      r.total_deductions = r.record.fuel_deduction + r.record.insurance_deduction +
        r.record.advance_deduction + r.record.other_deduction ∧
      r.net_pay = roundTo 2 (r.record.gross_pay - r.total_deductions)) ∧
    (get_pay_records db driver_id).2 = db := by
  refine ⟨?_, rfl⟩
  intro r hr
  obtain ⟨pd, _, rfl⟩ := List.mem_map.mp hr
  exact ⟨rfl, rfl⟩

/-- The record GET /api/pay returns on sampleDB. -/
def samplePayOut : PayOut :=
  { record := samplePay, driver := sampleDriver, total_deductions := 375
    net_pay := 4625 }

/-- Witness for C3 at a concrete database and record. -/
theorem pay_records_derived_fields_witness :
    samplePayOut.total_deductions = samplePayOut.record.fuel_deduction +
      samplePayOut.record.insurance_deduction + samplePayOut.record.advance_deduction +
      samplePayOut.record.other_deduction ∧
    samplePayOut.net_pay =
      roundTo 2 (samplePayOut.record.gross_pay - samplePayOut.total_deductions) :=
  (pay_records_derived_fields sampleDB none).1 samplePayOut (by decide)

/-- C10: the counts returned by GET /api/compliance/summary and
GET /api/insurance/summary satisfy expired + expiring_soon + compliant =
total, where total is the number of stored records. -/
theorem summary_counts_partition (db : DB) (now : ℚ) :
    (((compliance_summary db now).expired : ℤ) +
        ((compliance_summary db now).expiring_soon : ℤ) +
        (compliance_summary db now).compliant =
      ((compliance_summary db now).total : ℤ)) ∧
    (compliance_summary db now).total = db.compliance.length ∧
    (((insurance_summary db now).expired : ℤ) +
        ((insurance_summary db now).expiring_soon : ℤ) +
        (insurance_summary db now).compliant =
      ((insurance_summary db now).total : ℤ)) ∧
    (insurance_summary db now).total = db.insurance_policies.length := by
  refine ⟨?_, rfl, ?_, rfl⟩ <;>
    simp only [compliance_summary, insurance_summary] <;> ring

/-- C8: GET /api/analytics returns partially randomized trend data: the
daily_trend list always has exactly 14 entries (one per day, oldest first,
ending today), each entry's revenue lies in [18000, 42000], loads in
[4, 14] and miles in [2000, 6000], independent of the database contents. -/
theorem analytics_daily_trend (db : DB) (today : ℤ) (revR : ℕ → ℚ)
    (loadR milesR : ℕ → ℤ)
    (hrev : ∀ i, 18000 ≤ revR i ∧ revR i ≤ 42000)
    (hload : ∀ i, 4 ≤ loadR i ∧ loadR i ≤ 14)
    (hmile : ∀ i, 2000 ≤ milesR i ∧ milesR i ≤ 6000) :
    (get_analytics db today revR loadR milesR).daily_trend.length = 14 ∧
    ((get_analytics db today revR loadR milesR).daily_trend.map (fun e => e.date) =
      (List.range 14).map (fun k : ℕ => today - 13 + (k : ℤ))) ∧
    (∀ e ∈ (get_analytics db today revR loadR milesR).daily_trend,
      (18000 ≤ e.revenue ∧ e.revenue ≤ 42000) ∧
      (4 ≤ e.loads ∧ e.loads ≤ 14) ∧
      (2000 ≤ e.miles ∧ e.miles ≤ 6000)) ∧
    (∀ db2 : DB, (get_analytics db2 today revR loadR milesR).daily_trend =
      (get_analytics db today revR loadR milesR).daily_trend) := by
  have hdt : (get_analytics db today revR loadR milesR).daily_trend =
      dailyTrend today revR loadR milesR := rfl
  refine ⟨?_, ?_, ?_, fun db2 => rfl⟩
  · rw [hdt]
    unfold dailyTrend
    rw [List.length_map, List.length_range]
  · rw [hdt]
    unfold dailyTrend
    rw [List.map_map]
    apply List.map_congr_left
    intro k hk
    have hk14 : k < 14 := List.mem_range.mp hk
    show today - ((13 - k : ℕ) : ℤ) = today - 13 + (k : ℤ)
    omega
  · intro e he
    rw [hdt] at he
    unfold dailyTrend at he
    obtain ⟨k, hk, rfl⟩ := List.mem_map.mp he
    refine ⟨⟨?_, ?_⟩, ⟨(hload (13 - k)).1, (hload (13 - k)).2⟩,
      ⟨(hmile (13 - k)).1, (hmile (13 - k)).2⟩⟩
    · show (18000:ℚ) ≤ roundTo 0 (revR (13 - k))
      have h := intCast_le_roundTo_zero 18000 (revR (13 - k))
        (by exact_mod_cast (hrev (13 - k)).1)
      exact_mod_cast h
    · show roundTo 0 (revR (13 - k)) ≤ (42000:ℚ)
      have h := roundTo_zero_le_intCast 42000 (revR (13 - k))
        (by exact_mod_cast (hrev (13 - k)).2)
      exact_mod_cast h

/-- Witness for C8 at concrete randomness. -/
theorem analytics_daily_trend_witness :
    (get_analytics sampleDB 20500 (fun _ => 20000) (fun _ => 5)
      (fun _ => 3000)).daily_trend.length = 14 :=
  (analytics_daily_trend sampleDB 20500 (fun _ => 20000) (fun _ => 5) (fun _ => 3000)
    (fun _ => by norm_num) (fun _ => by norm_num) (fun _ => by norm_num)).1

/-- C5: POST /api/match assigns a pseudo-random score only to drivers whose
status is 'available': at most 5 such drivers are scored, each match_score
is the driver's on_time_rate times a random factor in [0.88, 1.0] rounded
to 2 decimals, no driver with any other status appears, and the matches
are sorted by match_score in descending order. -/
theorem match_drivers_scoring (db : DB) (lid : ℤ) (rands : ℕ → ℚ)
    (load : LoadRow) (ms : List MatchOut)
    (hm : match_drivers db lid rands = some (load, ms))
    (hr : ∀ i, 88/100 ≤ rands i ∧ rands i ≤ 1) :
    ms.length ≤ 5 ∧
    (∀ m ∈ ms, m.driver.status = "available" ∧
      ∃ r : ℚ, 88/100 ≤ r ∧ r ≤ 1 ∧
        m.match_score = roundTo 2 (m.driver.on_time_rate * r)) ∧
    List.Sorted (fun a b : MatchOut => b.match_score ≤ a.match_score) ms := by
  unfold match_drivers at hm
  cases hfind : db.loads.find? (fun l => l.id == lid) with
  | none => rw [hfind] at hm; exact absurd hm (by simp)
  | some l0 =>
    rw [hfind] at hm
    have hpair := Option.some.inj hm
    rw [Prod.ext_iff] at hpair
    obtain ⟨hl0, hms⟩ := hpair
    subst hms
    refine ⟨?_, ?_, ?_⟩
    · rw [List.length_insertionSort, List.length_map, List.enum_length,
        List.length_take]
      exact min_le_left _ _
    · intro m hmem
      have hmem2 := (List.mem_insertionSort _).mp hmem
      obtain ⟨⟨i, d⟩, hid, rfl⟩ := List.mem_map.mp hmem2
      have hd : d ∈ (List.insertionSort
          (fun a b : DriverRow => b.on_time_rate ≤ a.on_time_rate)
          (db.drivers.filter (fun d => d.status == "available"))).take 5 :=
        List.snd_mem_of_mem_enum hid
      have hd2 := List.take_subset 5 _ hd
      have hd3 := (List.mem_insertionSort _).mp hd2
      have hd4 := (List.mem_filter.mp hd3).2
      refine ⟨by simpa using hd4, rands i, (hr i).1, (hr i).2, rfl⟩
    · haveI : IsTotal MatchOut (fun a b => b.match_score ≤ a.match_score) :=
        ⟨fun a b => le_total b.match_score a.match_score⟩
      haveI : IsTrans MatchOut (fun a b => b.match_score ≤ a.match_score) :=
        ⟨fun _ _ _ h1 h2 => le_trans h2 h1⟩
      exact List.sorted_insertionSort _ _

/-- The single match POST /api/match produces on sampleDB with the random
factor fixed at 0.9: round(0.97 * 0.9, 2) = 0.87. -/
def sampleMatchOut : MatchOut :=
  { driver := sampleDriver, match_score := 87/100, match_type := "SOURCE LOAD" }

/-- Witness for C5 at a concrete database and randomness. -/
theorem match_drivers_scoring_witness :
    ([sampleMatchOut] : List MatchOut).length ≤ 5 ∧
    (∀ m ∈ ([sampleMatchOut] : List MatchOut), m.driver.status = "available" ∧
      ∃ r : ℚ, 88/100 ≤ r ∧ r ≤ 1 ∧
        m.match_score = roundTo 2 (m.driver.on_time_rate * r)) ∧
    List.Sorted (fun a b : MatchOut => b.match_score ≤ a.match_score)
      [sampleMatchOut] :=
  match_drivers_scoring sampleDB 1 (fun _ => 9/10) sampleLoad [sampleMatchOut]
    (by decide) (fun _ => by norm_num)

/-- A route whose stored mileage is only 0.1 miles. -/
def tinyRoute : RouteRow :=
  { id := 1, assignment_id := 1, total_miles := 1/10, estimated_hours := 0
    fuel_cost := 0, toll_cost := 0 }

/-- sampleDB with the 0.1 mile route. -/
def dbTinyRoute : DB := { sampleDB with routes := [tinyRoute] }

/-- Counterexample to C4 as stated: with stored mileage 0.1 (positive) and
discount 0.03 (drawn from [0.03, 0.08]) the fallback branch rounds the
discounted mileage back to 0.1, so the new mileage is not strictly smaller
and savings_miles is 0, not positive. -/
theorem optimize_route_small_mileage_counterexample :
    ((optimize_route dbTinyRoute 1 none (3/100)).map
        (fun rd => (rd.1.total_miles, rd.1.savings_miles))) =
      some (1/10, 0) ∧
    (0:ℚ) < 1/10 ∧ (3:ℚ)/100 ≤ 3/100 ∧ (3:ℚ)/100 ≤ 8/100 :=
  ⟨by decide, by norm_num, le_refl _, by norm_num⟩

/-- C4 amended: when the external routing service yields no route, the
fallback branch multiplies the stored mileage by (1 - p) with p drawn from
[0.03, 0.08] and rounds to one decimal; for every route whose stored
mileage is at least 4 miles the new mileage is strictly smaller and
savings_miles is positive (for tiny mileages the one-decimal rounding can
swallow the discount), and the stored route row is updated with
estimated_hours = round(new_miles/55, 1) and fuel_cost =
round(new_miles*0.43, 2). -/
theorem optimize_route_fallback_discount (db : DB) (aid : ℤ) (p : ℚ)
    (res : OptimizeResult) (db2 : DB)
    (h : optimize_route db aid none p = some (res, db2))
    (hp1 : 3/100 ≤ p) (hp2 : p ≤ 8/100)
    (route : RouteRow)
    (hr : db.routes.find? (fun r => r.assignment_id == aid) = some route)
    (hm : 4 ≤ route.total_miles) :
    res.real_route = false ∧
    res.total_miles = roundTo 1 (route.total_miles * (1 - p)) ∧
    res.total_miles < route.total_miles ∧
    0 < res.savings_miles ∧
    res.savings_miles = roundTo 1 (route.total_miles - res.total_miles) ∧
    (∀ r ∈ db2.routes, r.assignment_id = aid →
      r.total_miles = res.total_miles ∧
      r.estimated_hours = roundTo 1 (res.total_miles / 55) ∧
      r.fuel_cost = roundTo 2 (res.total_miles * (43/100))) := by
  unfold optimize_route at h
  split at h
  · exact absurd h (by simp)
  rename_i route' heq
  rw [hr] at heq
  obtain rfl : route = route' := Option.some.inj heq
  split at h
  · exact absurd h (by simp)
  split at h
  · exact absurd h (by simp)
  have hpair := Option.some.inj h
  rw [Prod.ext_iff] at hpair
  obtain ⟨hres, hdb2⟩ := hpair
  subst hres
  subst hdb2
  have hmp : (12:ℚ)/100 ≤ route.total_miles * p := by nlinarith
  have hub := roundTo_le 1 (route.total_miles * (1 - p))
  have hub2 : roundTo 1 (route.total_miles * (1 - p)) ≤
      route.total_miles - 7/100 := by
    have h20 : (1:ℚ) / (2 * 10 ^ 1) = 1/20 := by norm_num
    rw [h20] at hub
    nlinarith
  refine ⟨rfl, rfl, by simpa using lt_of_le_of_lt hub2 (by linarith), ?_, rfl, ?_⟩
  · show 0 < roundTo 1 (route.total_miles - roundTo 1 (route.total_miles * (1 - p)))
    apply roundTo_pos
    have h20 : (1:ℚ) / (2 * 10 ^ 1) = 1/20 := by norm_num
    rw [h20]
    linarith
  · intro r hr2 hraid
    obtain ⟨x, hx, rfl⟩ := List.mem_map.mp hr2
    by_cases hxa : (x.assignment_id == aid) = true
    · rw [if_pos hxa]
      exact ⟨rfl, rfl, rfl⟩
    · rw [if_neg hxa] at hraid ⊢
      exact absurd (beq_iff_eq.mpr hraid) hxa

/-- The route row after the fallback optimization of sampleRoute with
p = 0.05: 95 miles, round(95/55, 1) = 1.7 hours, round(95*0.43, 2) = 40.85. -/
def sampleOptRoute : RouteRow :=
  { id := 1, assignment_id := 1, total_miles := 95, estimated_hours := 17/10
    fuel_cost := 4085/100, toll_cost := 8 }

/-- The response of the fallback optimization of sampleRoute with p = 0.05. -/
def sampleOptRes : OptimizeResult :=
  { optimized := true, real_route := false, total_miles := 95
    estimated_hours := none, fuel_cost := none, savings_miles := 5 }

/-- sampleDB after the fallback optimization. -/
def sampleOptDB : DB := { sampleDB with routes := [sampleOptRoute] }

/-- Witness for the amended C4 at a concrete database and discount. -/
theorem optimize_route_fallback_discount_witness :
    sampleOptRes.real_route = false ∧
    sampleOptRes.total_miles = roundTo 1 (sampleRoute.total_miles * (1 - 1/20)) ∧
    sampleOptRes.total_miles < sampleRoute.total_miles ∧
    0 < sampleOptRes.savings_miles ∧
    sampleOptRes.savings_miles =
      roundTo 1 (sampleRoute.total_miles - sampleOptRes.total_miles) ∧
    (∀ r ∈ sampleOptDB.routes, r.assignment_id = 1 →
      r.total_miles = sampleOptRes.total_miles ∧
      r.estimated_hours = roundTo 1 (sampleOptRes.total_miles / 55) ∧
      r.fuel_cost = roundTo 2 (sampleOptRes.total_miles * (43/100))) :=
  optimize_route_fallback_discount sampleDB 1 (1/20) sampleOptRes sampleOptDB
    (by decide) (by norm_num) (by norm_num) sampleRoute (by decide) (by decide)

theorem assignLoadUpd_miles (did lid : ℤ) (l : LoadRow) :
    (assignLoadUpd did lid l).miles = l.miles := by
  unfold assignLoadUpd
  split <;> rfl

theorem find_assignLoadUpd (db : DB) (did lid : ℤ) (load : LoadRow)
    (hl : db.loads.find? (fun l => l.id == lid) = some load) :
    (db.loads.map (assignLoadUpd did lid)).find? (fun l => l.id == lid) =
      some (assignLoadUpd did lid load) := by
  rw [List.find?_map]
  have hcomp : ((fun l : LoadRow => l.id == lid) ∘ assignLoadUpd did lid) =
      (fun l : LoadRow => l.id == lid) := by
    funext l
    show ((assignLoadUpd did lid l).id == lid) = (l.id == lid)
    unfold assignLoadUpd
    split <;> rfl
  rw [hcomp, hl]
  rfl

/-- C6: POST /api/assignments records the pairing and establishes the paired
state: an assignment row linking driver and load is inserted, the driver's
status becomes 'on_load', the load's status becomes 'assigned' with
assigned_driver_id set, and a route row is created with total_miles equal
to the load's miles, estimated_hours = round(miles/55, 1), fuel_cost =
round(miles*0.43, 2) and toll_cost = round(miles*0.08, 2). -/
theorem create_assignment_effects (db : DB) (did lid : ℤ) (score : ℚ)
    (mtype : String) (td : Date) (load : LoadRow)
    (hl : db.loads.find? (fun l => l.id == lid) = some load) :
    ∃ res db2, create_assignment db did lid score mtype td = some (res, db2) ∧
      (∃ a ∈ db2.assignments, a.id = res.id ∧ a.driver_id = did ∧ a.load_id = lid) ∧
      (∀ d ∈ db2.drivers, d.id = did → d.status = "on_load") ∧
      (∀ l ∈ db2.loads, l.id = lid →
        l.status = "assigned" ∧ l.assigned_driver_id = some did) ∧
      (∃ r ∈ db2.routes, r.assignment_id = res.id ∧
        r.total_miles = load.miles ∧
        r.estimated_hours = roundTo 1 (load.miles / 55) ∧
        r.fuel_cost = roundTo 2 (load.miles * (43/100)) ∧
        r.toll_cost = roundTo 2 (load.miles * (8/100))) := by
  have hfind2 := find_assignLoadUpd db did lid load hl
  have hc : create_assignment db did lid score mtype td =
      some (create_assignment_apply db did lid score mtype td
        (assignLoadUpd did lid load)) := by
    unfold create_assignment
    rw [hfind2]
  refine ⟨_, _, hc, ?_, ?_, ?_, ?_⟩
  · refine ⟨{ id := db.next_assignment_id, driver_id := did, load_id := lid
              match_score := score, match_type := mtype, status := "active" },
      ?_, rfl, rfl, rfl⟩
    show _ ∈ db.assignments ++ [_]
    exact List.mem_append_right _ (List.mem_singleton.mpr rfl)
  · intro d hd hid
    have hd2 : d ∈ db.drivers.map (assignDriverUpd did) := hd
    obtain ⟨x, hx, rfl⟩ := List.mem_map.mp hd2
    unfold assignDriverUpd at hid ⊢
    by_cases hxa : (x.id == did) = true
    · rw [if_pos hxa]
    · rw [if_neg hxa] at hid ⊢
      exact absurd (beq_iff_eq.mpr hid) hxa
  · intro l hlm hid
    have hl2 : l ∈ db.loads.map (assignLoadUpd did lid) := hlm
    obtain ⟨x, hx, rfl⟩ := List.mem_map.mp hl2
    unfold assignLoadUpd at hid ⊢
    by_cases hxa : (x.id == lid) = true
    · rw [if_pos hxa]
      exact ⟨rfl, rfl⟩
    · rw [if_neg hxa] at hid ⊢
      exact absurd (beq_iff_eq.mpr hid) hxa
  · refine ⟨{ id := db.next_route_id, assignment_id := db.next_assignment_id
              total_miles := (assignLoadUpd did lid load).miles
              estimated_hours := roundTo 1 ((assignLoadUpd did lid load).miles / 55)
              fuel_cost := roundTo 2 ((assignLoadUpd did lid load).miles * (43/100))
              toll_cost := roundTo 2 ((assignLoadUpd did lid load).miles * (8/100)) },
      ?_, rfl, ?_, ?_, ?_, ?_⟩
    · show _ ∈ db.routes ++ [_]
      exact List.mem_append_right _ (List.mem_singleton.mpr rfl)
    · exact assignLoadUpd_miles did lid load
    · rw [assignLoadUpd_miles]
    · rw [assignLoadUpd_miles]
    · rw [assignLoadUpd_miles]

/-- Witness for C6 at a concrete database, driver and load. -/
theorem create_assignment_effects_witness :
    ∃ res db2,
      create_assignment sampleDB 1 1 (9/10) "SOURCE LOAD" ⟨2026, 2, 18⟩ =
        some (res, db2) ∧
      (∃ a ∈ db2.assignments, a.id = res.id ∧ a.driver_id = 1 ∧ a.load_id = 1) ∧
      (∀ d ∈ db2.drivers, d.id = 1 → d.status = "on_load") ∧
      (∀ l ∈ db2.loads, l.id = 1 →
        l.status = "assigned" ∧ l.assigned_driver_id = some 1) ∧
      (∃ r ∈ db2.routes, r.assignment_id = res.id ∧
        r.total_miles = sampleLoad.miles ∧
        r.estimated_hours = roundTo 1 (sampleLoad.miles / 55) ∧
        r.fuel_cost = roundTo 2 (sampleLoad.miles * (43/100)) ∧
        r.toll_cost = roundTo 2 (sampleLoad.miles * (8/100))) :=
  create_assignment_effects sampleDB 1 1 (9/10) "SOURCE LOAD" ⟨2026, 2, 18⟩
    sampleLoad (by decide)

/-- The per-jurisdiction property C1 asserts of a report computed for the
resolved quarter range qr: every jurisdiction carries that state's summed
miles, purchased gallons, rate from IFTA_RATES (0.25 default), consumed
gallons = miles / fleet MPG (0 when MPG is 0), tax due =
(consumed - purchased) * rate, status DUE exactly when tax due > 0, every
state appearing in either aggregation has a jurisdiction, fleet MPG is
total miles / total gallons rounded to 2 (0 when no gallons), and
total_tax_due is exactly the sum of the per-state tax_due values. -/
def IftaClaimProp (db : DB) (cid : ℤ) (year : ℕ) (qr : (ℕ × ℕ) × (ℕ × ℕ))
    (rep : IftaReport) : Prop :=
  (∀ j ∈ rep.jurisdictions,
    j.miles = roundTo 1 (milesInState (tripsInQuarter db cid year qr) j.state) ∧
    j.gallons_purchased =
      roundTo 3 (gallonsInState (fuelInQuarter db cid year qr) j.state) ∧
    j.tax_rate = iftaRate j.state ∧
    j.gallons_consumed =
      (if 0 < fleetMpgOf (tripsInQuarter db cid year qr) (fuelInQuarter db cid year qr)
       then roundTo 3 (milesInState (tripsInQuarter db cid year qr) j.state /
          fleetMpgOf (tripsInQuarter db cid year qr) (fuelInQuarter db cid year qr))
       else 0) ∧
    j.tax_due = roundTo 2 ((j.gallons_consumed -
      gallonsInState (fuelInQuarter db cid year qr) j.state) * iftaRate j.state) ∧
    (j.status = "DUE" ↔ 0 < j.tax_due) ∧
    (j.status = "CREDIT" ↔ ¬ 0 < j.tax_due)) ∧
  (∀ s, s ∈ tripStates (tripsInQuarter db cid year qr) ∨
        s ∈ fuelStates (fuelInQuarter db cid year qr) →
    ∃ j ∈ rep.jurisdictions, j.state = s) ∧
  rep.fleet_mpg =
    (if 0 < totalGallonsOf (fuelInQuarter db cid year qr)
     then roundTo 2 (totalMilesOf (tripsInQuarter db cid year qr) /
        totalGallonsOf (fuelInQuarter db cid year qr))
     else 0) ∧
  rep.total_tax_due = (rep.jurisdictions.map (fun j => j.tax_due)).sum

/-- C1: the IFTA report endpoint apportions miles and fuel-tax liability per
US jurisdiction from the stored trip and fuel records in the quarter, as
spelled out by IftaClaimProp. -/
theorem ifta_report_per_jurisdiction (db : DB) (cid : ℤ) (quarter year : ℕ)
    (rep : IftaReport) (h : ifta_report db cid quarter year = some rep) :
    ∃ qr, quarterRange quarter = some qr ∧ IftaClaimProp db cid year qr rep := by
  unfold ifta_report at h
  cases hq : quarterRange quarter with
  | none => rw [hq] at h; exact absurd h (by simp)
  | some qr =>
    rw [hq] at h
    obtain rfl : buildIftaReport db cid quarter year qr = rep := Option.some.inj h
    refine ⟨qr, rfl, ?_, ?_, rfl, ?_⟩
    · intro j hj
      have hj2 : j ∈ (sortedStatesOf (tripsInQuarter db cid year qr)
          (fuelInQuarter db cid year qr)).map
          (mkJurisdiction (tripsInQuarter db cid year qr)
            (fuelInQuarter db cid year qr)
            (fleetMpgOf (tripsInQuarter db cid year qr)
              (fuelInQuarter db cid year qr))) := hj
      obtain ⟨s, hs, rfl⟩ := List.mem_map.mp hj2
      refine ⟨rfl, rfl, rfl, rfl, rfl, ?_, ?_⟩
      · show (if 0 < (mkJurisdiction _ _ _ s).tax_due then "DUE" else "CREDIT") = "DUE"
          ↔ 0 < (mkJurisdiction _ _ _ s).tax_due
        split_ifs with hp
        · exact iff_of_true rfl hp
        · exact iff_of_false (by decide) hp
      · show (if 0 < (mkJurisdiction _ _ _ s).tax_due then "DUE" else "CREDIT") = "CREDIT"
          ↔ ¬ 0 < (mkJurisdiction _ _ _ s).tax_due
        split_ifs with hp
        · exact iff_of_false (by decide) (not_not_intro hp)
        · exact iff_of_true rfl hp
    · intro s hs
      have hs2 : s ∈ (tripStates (tripsInQuarter db cid year qr) ++
          fuelStates (fuelInQuarter db cid year qr)).dedup :=
        List.mem_dedup.mpr (List.mem_append.mpr hs)
      have hs3 : s ∈ sortedStatesOf (tripsInQuarter db cid year qr)
          (fuelInQuarter db cid year qr) := (List.mem_insertionSort _).mpr hs2
      exact ⟨mkJurisdiction _ _ _ s, List.mem_map_of_mem _ hs3, rfl⟩
    · show roundTo 2 _ = _
      apply roundTo_sum_eq
      intro y hy
      obtain ⟨j, hj, rfl⟩ := List.mem_map.mp hy
      obtain ⟨s, hs, rfl⟩ := List.mem_map.mp hj
      exact roundTo_den 2 _

/-- The single jurisdiction of the Q1 2026 report on sampleDB: fleet MPG is
round(1000/300, 2) = 3.33, consumed = round(1000/3.33, 3) = 300.3, tax due
= round((300.3 - 300) * 0.823, 2) = 0.25, hence DUE. -/
def sampleJurisdiction : Jurisdiction :=
  { state := "CA", miles := 1000, gallons_purchased := 300
    gallons_consumed := 3003/10, tax_rate := 823/1000, tax_due := 1/4
    status := "DUE" }

/-- The Q1 2026 report on sampleDB. -/
def sampleIftaReport : IftaReport :=
  { quarter := 1, year := 2026, total_miles := 1000, total_gallons := 300
    fleet_mpg := 333/100, total_tax_due := 1/4
    jurisdictions := [sampleJurisdiction] }

/-- Witness for C1 at a concrete database and quarter. -/
theorem ifta_report_per_jurisdiction_witness :
    IftaClaimProp sampleDB 1 2026 ((1, 1), (3, 31)) sampleIftaReport := by
  obtain ⟨qr, hq, hs⟩ :=
    ifta_report_per_jurisdiction sampleDB 1 1 2026 sampleIftaReport (by decide)
  obtain rfl : ((1, 1), (3, 31)) = qr :=
    Option.some.inj ((rfl : quarterRange 1 = some ((1, 1), (3, 31))).symm.trans hq)
  exact hs

/-- C7: the IFTA and compliance derivations are bounded and non-recursive:
the expiry classifier is a total function into the four status texts, and
the per-state IFTA computation is a finite aggregation whose jurisdictions
list is bounded by the number of stored trip and fuel records.  (Both are
Lean functions, hence terminating on every input by construction.) -/
theorem derivations_total_and_bounded :
    (∀ (expiry : Option ℚ) (now : ℚ),
      get_compliance_status expiry now = "missing" ∨
      get_compliance_status expiry now = "expired" ∨
      get_compliance_status expiry now = "expiring_soon" ∨
      get_compliance_status expiry now = "ok") ∧
    (∀ (db : DB) (cid : ℤ) (quarter year : ℕ) (rep : IftaReport),
      ifta_report db cid quarter year = some rep →
      rep.jurisdictions.length ≤
        db.vehicle_miles.length + db.fuel_entries.length) := by
  constructor
  · intro expiry now
    cases expiry with
    | none => exact Or.inl rfl
    | some e =>
      rw [get_compliance_status_some]
      split_ifs with h1 h2
      · exact Or.inr (Or.inl rfl)
      · exact Or.inr (Or.inr (Or.inl rfl))
      · exact Or.inr (Or.inr (Or.inr rfl))
  · intro db cid quarter year rep h
    unfold ifta_report at h
    cases hq : quarterRange quarter with
    | none => rw [hq] at h; exact absurd h (by simp)
    | some qr =>
      rw [hq] at h
      obtain rfl : buildIftaReport db cid quarter year qr = rep := Option.some.inj h
      have h1 : (tripStates (tripsInQuarter db cid year qr)).length ≤
          db.vehicle_miles.length := by
        unfold tripStates
        calc ((tripsInQuarter db cid year qr).map (fun t => t.state)).dedup.length
            ≤ ((tripsInQuarter db cid year qr).map (fun t => t.state)).length :=
              (List.dedup_sublist _).length_le
          _ = (tripsInQuarter db cid year qr).length := List.length_map _ _
          _ ≤ db.vehicle_miles.length := List.length_filter_le _ _
      have h2 : (fuelStates (fuelInQuarter db cid year qr)).length ≤
          db.fuel_entries.length := by
        unfold fuelStates
        calc ((fuelInQuarter db cid year qr).map (fun f => f.state)).dedup.length
            ≤ ((fuelInQuarter db cid year qr).map (fun f => f.state)).length :=
              (List.dedup_sublist _).length_le
          _ = (fuelInQuarter db cid year qr).length := List.length_map _ _
          _ ≤ db.fuel_entries.length := List.length_filter_le _ _
      show ((sortedStatesOf (tripsInQuarter db cid year qr)
          (fuelInQuarter db cid year qr)).map _).length ≤ _
      rw [List.length_map]
      unfold sortedStatesOf
      rw [List.length_insertionSort]
      calc (tripStates (tripsInQuarter db cid year qr) ++
            fuelStates (fuelInQuarter db cid year qr)).dedup.length
          ≤ (tripStates (tripsInQuarter db cid year qr) ++
            fuelStates (fuelInQuarter db cid year qr)).length :=
            (List.dedup_sublist _).length_le
        _ = (tripStates (tripsInQuarter db cid year qr)).length +
            (fuelStates (fuelInQuarter db cid year qr)).length :=
            List.length_append _ _
        _ ≤ db.vehicle_miles.length + db.fuel_entries.length := add_le_add h1 h2

/-- Witness for C7's bounded-aggregation part at a concrete database. -/
theorem derivations_total_and_bounded_witness :
    sampleIftaReport.jurisdictions.length ≤
      sampleDB.vehicle_miles.length + sampleDB.fuel_entries.length :=
  derivations_total_and_bounded.2 sampleDB 1 1 2026 sampleIftaReport (by decide)

/-- The CSV data row the export produces on sampleDB for Q1 2026: with the
unrounded fleet MPG 10/3, consumed = round(1000/(10/3), 3) = 300 exactly,
so tax due is 0 and the status is CREDIT - unlike the report, which uses
the rounded MPG 3.33 and reports 300.3 consumed, 0.25 due, DUE. -/
def sampleCsvRow : CsvRow :=
  { state := "CA", miles := 1000, gallons_purchased := 300
    gallons_consumed := 300, tax_rate := 823/1000, tax_due := 0
    status := "CREDIT" }

/-- Counterexample to C9 as stated: on sampleDB the export's CSV rows do
not match the report's jurisdictions - gallons consumed (300 vs 300.3),
tax due (0 vs 0.25) and status (CREDIT vs DUE) all differ, because the
export recomputes fleet MPG without the report's rounding to 2 decimals. -/
theorem ifta_export_report_mismatch :
    ifta_export sampleDB 1 1 2026 = some [sampleCsvRow] ∧
    ifta_report sampleDB 1 1 2026 = some sampleIftaReport ∧
    [sampleCsvRow] ≠ sampleIftaReport.jurisdictions.map jurToCsv :=
  ⟨by decide, by decide, by decide⟩

/-- C9 amended: the export always reports the same per-state miles, gallons
purchased and tax rate as the report's jurisdictions list; gallons
consumed, tax due and the DUE/CREDIT status additionally coincide whenever
rounding total miles / total gallons to 2 decimals changes nothing (in
particular whenever total gallons is 0), since the export uses the
unrounded ratio where the report rounds it. -/
theorem ifta_export_report_agreement (db : DB) (cid : ℤ) (quarter year : ℕ)
    (rep : IftaReport) (rows : List CsvRow)
    (hrep : ifta_report db cid quarter year = some rep)
    (hexp : ifta_export db cid quarter year = some rows) :
    (rows.map (fun r => (r.state, r.miles, r.gallons_purchased, r.tax_rate)) =
      rep.jurisdictions.map (fun j => (j.state, j.miles, j.gallons_purchased, j.tax_rate))) ∧
    (∀ qr, quarterRange quarter = some qr →
      roundTo 2 (totalMilesOf (tripsInQuarter db cid year qr) /
          totalGallonsOf (fuelInQuarter db cid year qr)) =
        totalMilesOf (tripsInQuarter db cid year qr) /
          totalGallonsOf (fuelInQuarter db cid year qr) →
      rows = rep.jurisdictions.map jurToCsv) := by
  unfold ifta_report at hrep
  unfold ifta_export at hexp
  cases hq : quarterRange quarter with
  | none => rw [hq] at hrep; exact absurd hrep (by simp)
  | some qr =>
    rw [hq] at hrep hexp
    obtain rfl : buildIftaReport db cid quarter year qr = rep := Option.some.inj hrep
    obtain rfl : buildCsvRows db cid year qr = rows := Option.some.inj hexp
    constructor
    · show ((sortedStatesOf (tripsInQuarter db cid year qr)
          (fuelInQuarter db cid year qr)).map _).map _ =
        ((sortedStatesOf (tripsInQuarter db cid year qr)
          (fuelInQuarter db cid year qr)).map _).map _
      rw [List.map_map, List.map_map]
      apply List.map_congr_left
      intro s hs
      rfl
    · intro qr' hq' hmpg
      obtain rfl : qr = qr' := Option.some.inj hq'
      have hm : (if 0 < totalGallonsOf (fuelInQuarter db cid year qr)
          then totalMilesOf (tripsInQuarter db cid year qr) /
            totalGallonsOf (fuelInQuarter db cid year qr)
          else 0) =
          fleetMpgOf (tripsInQuarter db cid year qr) (fuelInQuarter db cid year qr) := by
        unfold fleetMpgOf
        split_ifs with hg
        · exact hmpg.symm
        · rfl
      show (sortedStatesOf (tripsInQuarter db cid year qr)
          (fuelInQuarter db cid year qr)).map
          (mkCsvRow (tripsInQuarter db cid year qr) (fuelInQuarter db cid year qr)
            (if 0 < totalGallonsOf (fuelInQuarter db cid year qr)
             then totalMilesOf (tripsInQuarter db cid year qr) /
               totalGallonsOf (fuelInQuarter db cid year qr)
             else 0)) =
        ((sortedStatesOf (tripsInQuarter db cid year qr)
          (fuelInQuarter db cid year qr)).map _).map jurToCsv
      rw [hm, List.map_map]
      apply List.map_congr_left
      intro s hs
      rfl

/-- 100 California miles inside Q1 2026 (exact-MPG witness data). -/
def tripExact : VehicleMilesRow :=
  { company_id := 1, vehicle := "TRK-001", driver_name := "Ivan Grau"
    state := "CA", miles := 100, trip_date := ⟨2026, 2, 1⟩, load_id := none }

/-- 10 California gallons inside Q1 2026 (exact-MPG witness data). -/
def fuelExact : FuelRow :=
  { company_id := 1, driver_name := "Ivan Grau", vehicle := "TRK-001"
    state := "CA", gallons := 10, price_per_gallon := 4, total_cost := 40
    fuel_date := ⟨2026, 2, 2⟩ }

/-- A database whose fleet MPG (100/10 = 10) is exact at 2 decimals, so the
report and the export agree completely. -/
def dbExact : DB :=
  { emptyDB with vehicle_miles := [tripExact], fuel_entries := [fuelExact] }

/-- The Q1 2026 report on dbExact. -/
def exactReport : IftaReport :=
  { quarter := 1, year := 2026, total_miles := 100, total_gallons := 10
    fleet_mpg := 10, total_tax_due := 0
    jurisdictions := [{ state := "CA", miles := 100, gallons_purchased := 10
                        gallons_consumed := 10, tax_rate := 823/1000
                        tax_due := 0, status := "CREDIT" }] }

/-- The Q1 2026 CSV rows on dbExact. -/
def exactCsv : List CsvRow :=
  [{ state := "CA", miles := 100, gallons_purchased := 10
     gallons_consumed := 10, tax_rate := 823/1000, tax_due := 0
     status := "CREDIT" }]

/-- Witness for the amended C9 at a concrete database whose fleet MPG is
exact at 2 decimals. -/
theorem ifta_export_report_agreement_witness :
    (exactCsv.map (fun r => (r.state, r.miles, r.gallons_purchased, r.tax_rate)) =
      exactReport.jurisdictions.map
        (fun j => (j.state, j.miles, j.gallons_purchased, j.tax_rate))) ∧
    exactCsv = exactReport.jurisdictions.map jurToCsv := by
  have h := ifta_export_report_agreement dbExact 1 1 2026 exactReport exactCsv
    (by decide) (by decide)
  exact ⟨h.1, h.2 ((1, 1), (3, 31)) rfl (by decide)⟩
